import Mathlib

/-!
Verification development for the hats-tap TAP server prototype
(`src/tap_server/tap_server.py`).  The Python functions are shallowly
embedded as executable Lean definitions; external collaborators (the ADQL
parser, the LSDB catalog backend, the SQLite engine behind the metadata
store, and the wall clock) are modelled as explicit inputs.  String
operations model Python semantics on ASCII text (the regular expressions
in the source only use ASCII character classes).
-/

namespace TapServer

/-- Python `str.lower` (ASCII). -/
def strLower (s : String) : String := String.mk (s.data.map Char.toLower)

/-- Python `str.upper` (ASCII). -/
def strUpper (s : String) : String := String.mk (s.data.map Char.toUpper)

/-- Python character membership `c in s`. -/
def containsChar (s : String) (c : Char) : Bool := s.data.contains c

/-- Python substring containment `pat in s`, on character lists. -/
def containsSub (s pat : List Char) : Bool :=
  pat.isPrefixOf s ||
    match s with
    | [] => false
    | _ :: t => containsSub t pat

/-- Function `is_tap_schema_query` from tap_server.py: empty text is not a
TAP_SCHEMA query; otherwise test `"tap_schema." in query_str.lower()`. -/
def is_tap_schema_query (query_str : String) : Bool :=
  if query_str = "" then false
  else containsSub (strLower query_str).data "tap_schema.".data

/-- The regex word-character class `\w` (ASCII part): `[a-zA-Z0-9_]`. -/
def isWordChar (c : Char) : Bool := c.isAlpha || c.isDigit || c == '_'

/-- Start of the identifier pattern `[a-zA-Z_]`. -/
def isIdentStart (c : Char) : Bool := c.isAlpha || c == '_'

/-- The regex whitespace class `\s` (ASCII part). -/
def isSpaceChar (c : Char) : Bool :=
  c == ' ' || c == '\t' || c == '\n' || c == '\r' || c == '\x0b' || c == '\x0c'

/-- Case-insensitive match of the literal `FROM` at the head of the list;
returns the remainder on success. -/
def matchFromKeyword : List Char → Option (List Char)
  | c1 :: c2 :: c3 :: c4 :: rest =>
      if c1.toLower == 'f' && c2.toLower == 'r' && c3.toLower == 'o' && c4.toLower == 'm'
      then some rest else none
  | _ => none

/-- After a matched `FROM`, match `\s+([a-zA-Z_][a-zA-Z0-9_]*(?:\.[a-zA-Z_][a-zA-Z0-9_]*)?)\b`
and return the captured group.  The trailing `\b` always holds because the
identifier characters are consumed greedily. -/
def matchCandidate (rest : List Char) : Option (List Char) :=
  match rest with
  | [] => none
  | c :: _ =>
    if isSpaceChar c then
      let afterWs := rest.dropWhile isSpaceChar
      match afterWs with
      | [] => none
      | d :: _ =>
        if isIdentStart d then
          let ident1 := afterWs.takeWhile isWordChar
          let rest1 := afterWs.dropWhile isWordChar
          match rest1 with
          | '.' :: e :: more =>
            if isIdentStart e then
              some (ident1 ++ '.' :: e :: more.takeWhile isWordChar)
            else some ident1
          | _ => some ident1
        else none
    else none

/-- Leftmost search for `\bFROM\s+(ident(.ident)?)\b`, as `re.search` does:
try every position (tracking the previous character for the `\b` word
boundary) and return the first captured group. -/
def scanFrom : Option Char → List Char → Option (List Char)
  | _, [] => none
  | prev, c :: rest =>
    let boundary := match prev with
      | none => true
      | some p => !isWordChar p
    if boundary then
      match matchFromKeyword (c :: rest) with
      | some tail =>
        match matchCandidate tail with
        | some cand => some cand
        | none => scanFrom (some c) rest
      | none => scanFrom (some c) rest
    else scanFrom (some c) rest

/-- The SQL keyword exclusion set of `sync_query`. -/
def sqlKeywords : List String :=
  ["WHERE", "SELECT", "ORDER", "GROUP", "HAVING", "LIMIT", "OFFSET",
   "UNION", "INTERSECT", "EXCEPT", "JOIN", "INNER", "LEFT", "RIGHT",
   "OUTER", "CROSS", "ON", "AS", "AND", "OR", "NOT", "IN", "EXISTS",
   "BETWEEN", "LIKE", "IS", "NULL", "DISTINCT", "ALL", "ANY", "SOME"]

/-- Python `candidate.split(".")[-1]`: the segment after the last dot. -/
def lastDotSegment (l : List Char) : List Char :=
  (l.reverse.takeWhile (fun c => c ≠ '.')).reverse

/-- The table-name recovery of `sync_query` (lines 416-468): start from the
sentinel `"results"`, regex-scan the raw query text for an identifier after
`FROM`, and accept it unless its table part is an SQL keyword. -/
def extractTableName (query : String) : String :=
  match scanFrom none query.data with
  | none => "results"
  | some cand =>
      if sqlKeywords.contains (strUpper (String.mk (lastDotSegment cand)))
      then "results"
      else String.mk cand

/-! ### Values, rows and column metadata -/

/-- A Python cell value as it appears in a result row. -/
inductive CellValue where
  | vNone
  | vStr (s : String)
  | vInt (n : Int)
deriving Repr, DecidableEq

/-- Python `str(...)` on the modelled values. -/
def pyStr : CellValue → String
  | .vNone => "None"
  | .vStr s => s
  | .vInt n => toString n

/-- A result row: Python dict from column name to value (insertion order,
unique keys). -/
abbrev Row := List (String × CellValue)

/-- Per-column metadata dict built by `get_column_metadata`. -/
structure ColMeta where
  datatype : String
  unit : String
  ucd : String
  description : String
deriving Repr, DecidableEq

/-- A row of the metadata store's `columns` relation (§6 of the spec). -/
structure ColRecord where
  table_name : String
  column_name : String
  datatype : String
  unit : String
  ucd : String
  description : String
deriving Repr, DecidableEq

/-- Python dict assignment `d[k] = v`: overwrite in place when the key
exists, append otherwise. -/
def dictInsert (d : List (String × α)) (k : String) (v : α) : List (String × α) :=
  if (List.lookup k d).isSome then
    d.map (fun p => if p.1 == k then (k, v) else p)
  else d ++ [(k, v)]

/-- Modelled from the spec: `tap_schema_db.query` (§4.1, code missing from
src/) applied to the fixed text
`SELECT column_name, datatype, unit, ucd, description FROM columns WHERE table_name = ?`:
a parameterized read returning the matching rows, an empty sequence when
none match. -/
def queryColumnsByTable (store : List ColRecord) (t : String) : List ColRecord :=
  store.filter (fun r => r.table_name == t)

/-- The metadata-dictionary construction loop of `get_column_metadata`:
`metadata[col_name] = {datatype, unit, ucd, description}` per row.  The
`row.get(..., default)` defaults never fire because the SELECT always
produces all five fields. -/
def buildMetadata (results : List ColRecord) : List (String × ColMeta) :=
  results.foldl
    (fun d r => dictInsert d r.column_name ⟨r.datatype, r.unit, r.ucd, r.description⟩) []

/-- Function `get_column_metadata` from tap_server.py.  `storeFails` models the
underlying engine raising inside the `try` block (caught: returns `{}`). -/
def get_column_metadata (store : List ColRecord) (storeFails : Bool)
    (table_name : String) : List (String × ColMeta) :=
  if table_name = "" then []
  else if storeFails then []
  else
    let results := queryColumnsByTable store table_name
    let results :=
      if results.isEmpty && !(containsChar table_name '.') then
        queryColumnsByTable store ("public." ++ table_name)
      else results
    buildMetadata results

/-! ### XML documents

The server builds `xml.etree.ElementTree` trees and pretty-prints them;
we model the tree (`format_xml_with_indentation` is pure formatting). -/

/-- An XML element: tag, attributes (insertion order), optional text,
children. -/
inductive XElem where
  | mk (tag : String) (attrs : List (String × String)) (text : Option String)
      (children : List XElem)

def XElem.tagOf : XElem → String
  | .mk t _ _ _ => t

def XElem.attrsOf : XElem → List (String × String)
  | .mk _ a _ _ => a

def XElem.textOf : XElem → Option String
  | .mk _ _ tx _ => tx

def XElem.childrenOf : XElem → List XElem
  | .mk _ _ _ cs => cs

/-- The `field_attrs` dict constructed for one output column
(tap_server.py lines 177-213): defaults `datatype="double"`, `unit=""`;
stored metadata overrides the truthy entries and adds `ucd`; without
stored metadata a fixed table of astronomical fallbacks applies. -/
def fieldAttrsFor (col : String) (column_metadata : List (String × ColMeta)) :
    List (String × String) :=
  match List.lookup col column_metadata with
  | some meta =>
      [("name", col),
       ("datatype", if meta.datatype ≠ "" then meta.datatype else "double"),
       ("unit", if meta.unit ≠ "" then meta.unit else "")] ++
      (if meta.ucd ≠ "" then [("ucd", meta.ucd)] else [])
  | none =>
      let l := strLower col
      if l = "ra" ∨ l = "ra_deg" then
        [("name", col), ("datatype", "double"), ("unit", "deg"),
         ("ucd", "pos.eq.ra;meta.main")]
      else if l = "dec" ∨ l = "dec_deg" then
        [("name", col), ("datatype", "double"), ("unit", "deg"),
         ("ucd", "pos.eq.dec;meta.main")]
      else if l = "mag" ∨ l = "magnitude" then
        [("name", col), ("datatype", "double"), ("unit", "mag"),
         ("ucd", "phot.mag")]
      else
        [("name", col), ("datatype", "double"), ("unit", "")]

/-- One `TD` cell: `value = row_data.get(col, "")`, then
`str(value) if value is not None else ""`. -/
def renderCell (row_data : Row) (col : String) : String :=
  match List.lookup col row_data with
  | none => ""
  | some .vNone => ""
  | some v => pyStr v

/-- The `TD` element for one cell. -/
def tdElem (row_data : Row) (col : String) : XElem :=
  .mk "TD" [] (some (renderCell row_data col)) []

/-- The `TR` element for one row: one `TD` per output column. -/
def trElem (columns : List String) (row_data : Row) : XElem :=
  .mk "TR" [] none (columns.map (tdElem row_data))

/-- The `query_info` dict passed to the serializer (both keys are always
set by `sync_query`). -/
structure QueryInfo where
  query : String
  table : String
deriving Repr, DecidableEq

/-- Function `create_votable_response` from tap_server.py, at tree level; `now`
models `datetime.datetime.now(datetime.UTC).isoformat()`. -/
def create_votable_response (data : List Row) (columns : List String)
    (query_info : QueryInfo) (column_metadata : List (String × ColMeta))
    (now : String) : XElem :=
  .mk "VOTABLE"
    [("version", "1.4"),
     ("xmlns", "http://www.ivoa.net/xml/VOTable/v1.4"),
     ("xmlns:xsi", "http://www.w3.org/2001/XMLSchema-instance")]
    none
    [.mk "RESOURCE" [("type", "results")] none
      ([.mk "INFO" [("name", "QUERY_STATUS"), ("value", "OK")] none [],
        .mk "INFO" [("name", "QUERY"), ("value", query_info.query)] none [],
        .mk "INFO" [("name", "TIMESTAMP"), ("value", now)] none [],
        .mk "TABLE" [("name", query_info.table)] none
          (columns.map (fun col => XElem.mk "FIELD" (fieldAttrsFor col column_metadata) none []) ++
           [.mk "DATA" [] none
             [.mk "TABLEDATA" [] none (data.map (trElem columns))]])])]

/-- Function `create_error_votable` from tap_server.py: error status and message;
the `QUERY` entry only when the query text is truthy; no timestamp. -/
def create_error_votable (error_message : String) (query : String) : XElem :=
  .mk "VOTABLE"
    [("version", "1.4"), ("xmlns", "http://www.ivoa.net/xml/VOTable/v1.4")]
    none
    [.mk "RESOURCE" [("type", "results")] none
      ([.mk "INFO" [("name", "QUERY_STATUS"), ("value", "ERROR")] none [],
        .mk "INFO" [("name", "ERROR"), ("value", error_message)] none []] ++
       (if query ≠ "" then
          [XElem.mk "INFO" [("name", "QUERY"), ("value", query)] none []]
        else []))]

/-! ### The data-query path of `sync_query` -/

/-- The tagged `spatial_search` variant of the parsed query descriptor
(spec §3); the code only inspects the `"type"` tag and the cone fields. -/
inductive SpatialSearch where
  | coneSearch (ra dec radius : Rat)
  | polygonSearch (coordinates : List (Rat × Rat))
deriving Repr, DecidableEq

/-- The `lsdb.ConeSearch` predicate handed to the catalog backend. -/
structure LsdbConeSearch where
  ra : Rat
  dec : Rat
  radius_arcsec : Rat
deriving Repr, DecidableEq

/-- The spatial-predicate mapping of `sync_query` (lines 392-402): only
the `"ConeSearch"` tag is translated (degrees → arcseconds); every other
variant, and the absence of one, leaves `search_filter = None`.  The code
raises nothing here. -/
def searchFilterOf : Option SpatialSearch → Option LsdbConeSearch
  | some (.coneSearch ra dec radius) => some ⟨ra, dec, radius * 3600⟩
  | _ => none

/-- The parsed query descriptor (`parse_adql_entities` result, spec §3). -/
structure QueryDescriptor where
  tables : List String
  columns : List String
  conditions : List (String × String × CellValue)
  spatial_search : Option SpatialSearch
  limits : Nat
  order_by : List (String × Bool)

/-- The deployed catalog path root chosen in `sync_query`. -/
def catalogBase : String := "/var/www/data.lsdb.io/html/hats"

/-- Catalog URL construction of `sync_query` (lines 384-389): split a
dotted table name into its first two parts. -/
def catalogUrlOf (table : String) : String :=
  if containsChar table '.' then
    let parts := table.splitOn "."
    catalogBase ++ "/" ++ parts.headD "" ++ "/" ++ (parts.drop 1).headD "" ++ "/"
  else
    catalogBase ++ "/" ++ table ++ "/"

/-- The arguments `sync_query` passes to `lsdb.open_catalog` and
`cat.head`. -/
structure CatalogRequest where
  url : String
  columns : List String
  search_filter : Option LsdbConeSearch
  filters : List (String × String × CellValue)
  limits : Nat

/-- Assembles the catalog request from the descriptor, exactly as
`sync_query` does (first table for the URL, cone translation for the
spatial predicate, conditions as filters, `limits` as the head cap). -/
def buildCatalogRequest (entities : QueryDescriptor) : CatalogRequest :=
  { url := catalogUrlOf (entities.tables.headD "")
    columns := entities.columns
    search_filter := searchFilterOf entities.spatial_search
    filters := entities.conditions
    limits := entities.limits }

/-- Function `query_tap_schema` from tap_server.py: the argument models the
outcome of `tap_schema_db.query_with_columns(query_str, None)`; any
exception is caught and turned into the empty result. -/
def query_tap_schema (result : Except String (List Row × List String)) :
    List Row × List String :=
  match result with
  | .ok r => r
  | .error _ => ([], [])

/-- The LANG validation `re.match(r"^adql(-\d+\(\.\d+\)?)?", lang, IGNORECASE)`:
since the whole group is optional this succeeds exactly when the text
starts with `adql`, case-insensitively. -/
def langOk (lang : String) : Bool := "adql".data.isPrefixOf (strLower lang).data

/-- Python `params.get(key, default)` over the request's form/args. -/
def pget (params : List (String × String)) (key dflt : String) : String :=
  (List.lookup key params).getD dflt

/-- One request's external world, passed explicitly: the form/query
parameters, the ADQL parser, the metadata-store engine for TAP_SCHEMA
text, the LSDB catalog backend, the `columns` relation of the store (with
a failure flag for the enrichment lookup), and the wall clock.  `.error`
models the collaborator raising an exception with that message. -/
structure SyncInputs where
  params : List (String × String)
  parse : String → Except String QueryDescriptor
  tapStore : String → Except String (List Row × List String)
  catalog : CatalogRequest → Except String (List Row × List String)
  colStore : List ColRecord
  colStoreFails : Bool
  now : String

/-- A Flask `Response`: the XML document body and the HTTP status. -/
structure SyncResponse where
  body : XElem
  status : Nat

/-- The tail of `sync_query` shared by both branches (lines 470-483):
column-metadata enrichment, then the format dispatch. -/
def finishSync (inp : SyncInputs) (query output_format : String)
    (data : List Row) (result_columns : List String) (table_name : String) :
    SyncResponse :=
  let column_metadata := get_column_metadata inp.colStore inp.colStoreFails table_name
  let query_info : QueryInfo := ⟨query, table_name⟩
  if output_format = "votable" ∨ output_format = "votable/td" then
    ⟨create_votable_response data result_columns query_info column_metadata inp.now, 200⟩
  else
    ⟨create_error_votable ("Unsupported format: " ++ output_format) query, 400⟩

/-- Function `sync_query` from tap_server.py: parameter validation, classification
between the TAP_SCHEMA branch and the data branch, catalog execution,
table-name recovery, enrichment and serialization.  A failing parser or
catalog call is the outer `except`: a 500 error document carrying
`"Error processing query: "` plus the exception text (the `assert` on an
empty table list raises an `AssertionError` whose text is empty). -/
def sync_query (inp : SyncInputs) : SyncResponse :=
  let request_type := pget inp.params "REQUEST" ""
  if request_type ≠ "doQuery" then
    ⟨create_error_votable
        ("Invalid REQUEST parameter: " ++ request_type ++ ". Must be 'doQuery'.") "", 400⟩
  else
    let lang := pget inp.params "LANG" "ADQL"
    if !langOk lang then
      ⟨create_error_votable
          ("Unsupported query language: " ++ lang ++ ". Only ADQL is supported.") "", 400⟩
    else
      let query := pget inp.params "QUERY" ""
      if query = "" then
        ⟨create_error_votable "Missing required parameter: QUERY" "", 400⟩
      else
        let output_format := strLower (pget inp.params "FORMAT" "votable")
        if is_tap_schema_query query then
          let r := query_tap_schema (inp.tapStore query)
          finishSync inp query output_format r.1 r.2 "tap_schema"
        else
          match inp.parse query with
          | .error e =>
              ⟨create_error_votable ("Error processing query: " ++ e) query, 500⟩
          | .ok entities =>
            if entities.tables.isEmpty then
              ⟨create_error_votable "Error processing query: " query, 500⟩
            else
              match inp.catalog (buildCatalogRequest entities) with
              | .error e =>
                  ⟨create_error_votable ("Error processing query: " ++ e) query, 500⟩
              | .ok (data, result_columns) =>
                  finishSync inp query output_format data result_columns
                    (extractTableName query)

/-- Finds the `value` attribute of the first `INFO` child of the
document's `RESOURCE` element whose `name` attribute is `nm`. -/
def findInfo (es : List XElem) (nm : String) : Option String :=
  match es with
  | [] => none
  | e :: rest =>
    if e.tagOf == "INFO" && List.lookup "name" e.attrsOf == some nm then
      List.lookup "value" e.attrsOf
    else findInfo rest nm

/-- Looks an `INFO` entry up inside a produced VOTable document. -/
def getInfo (doc : XElem) (nm : String) : Option String :=
  match doc.childrenOf with
  | res :: _ => findInfo res.childrenOf nm
  | [] => none

/-- The `TABLE` element of a result document, when present. -/
def tableOf (doc : XElem) : Option XElem :=
  match doc.childrenOf with
  | res :: _ => res.childrenOf.find? (fun e => e.tagOf == "TABLE")
  | [] => none

/-- The `name` attribute of the result document's `TABLE` element. -/
def tableNameOf (doc : XElem) : Option String :=
  (tableOf doc).bind (fun e => List.lookup "name" e.attrsOf)

/-- The `FIELD` elements of a result document. -/
def fieldsOf (doc : XElem) : List XElem :=
  match tableOf doc with
  | some t => t.childrenOf.filter (fun e => e.tagOf == "FIELD")
  | none => []

/-- The `TR` row elements of a result document. -/
def rowsOf (doc : XElem) : List XElem :=
  match tableOf doc with
  | some t =>
    match t.childrenOf.find? (fun e => e.tagOf == "DATA") with
    | some d =>
      match d.childrenOf with
      | td :: _ => td.childrenOf
      | [] => []
    | none => []
  | none => []

/-! ### The `/tables` discovery document -/

/-- A row of the metadata store's `schemas` relation. -/
structure SchemaRecord where
  schema_name : String
  description : String
deriving Repr, DecidableEq

/-- A row of the metadata store's `tables` relation. -/
structure TableRecord where
  schema_name : String
  table_name : String
  table_type : String
  description : String
deriving Repr, DecidableEq

/-- A row of the metadata store's `keys` relation. -/
structure KeyRecord where
  key_id : String
  from_table : String
  target_table : String
  description : String
deriving Repr, DecidableEq

/-- A row of the metadata store's `key_columns` relation. -/
structure KeyColumnRecord where
  key_id : String
  from_column : String
  target_column : String
deriving Repr, DecidableEq

/-- The five relations of the metadata store (spec §6). -/
structure TapSchemaStore where
  schemas : List SchemaRecord
  tables : List TableRecord
  columns : List ColRecord
  keys : List KeyRecord
  key_columns : List KeyColumnRecord

/-- Insertion into a list sorted by a string key (SQLite's binary
collation coincides with codepoint order). -/
def insertSorted (key : α → String) (a : α) : List α → List α
  | [] => [a]
  | b :: bs => if key b < key a then b :: insertSorted key a bs else a :: b :: bs

/-- Sorting used to model the `ORDER BY <name>` of the store queries. -/
def sortByKey (key : α → String) (l : List α) : List α :=
  l.foldr (insertSorted key) []

/-- Modelled from the spec: `tap_schema_db.query` (§4.1, code missing
from src/) for `SELECT schema_name, description FROM schemas ORDER BY schema_name`. -/
def querySchemas (store : TapSchemaStore) : List SchemaRecord :=
  sortByKey (fun s => s.schema_name) store.schemas

/-- Modelled from the spec: `tap_schema_db.query` for
`SELECT table_name, description FROM tables WHERE schema_name = ? ORDER BY table_name`. -/
def queryTablesOf (store : TapSchemaStore) (schema : String) : List TableRecord :=
  sortByKey (fun t => t.table_name) (store.tables.filter (fun t => t.schema_name == schema))

/-- Modelled from the spec: `tap_schema_db.query` for
`SELECT column_name, datatype, unit, ucd, description FROM columns WHERE table_name = ? ORDER BY column_name`. -/
def queryColumnsOrdered (store : TapSchemaStore) (t : String) : List ColRecord :=
  sortByKey (fun c => c.column_name) (store.columns.filter (fun c => c.table_name == t))

/-- The `column` element of `generate_tables_xml`: name always; dataType,
unit, ucd and description only when truthy. -/
def columnElem (r : ColRecord) : XElem :=
  .mk "column" [] none
    ([XElem.mk "name" [] (some r.column_name) []] ++
     (if r.datatype ≠ "" then [XElem.mk "dataType" [] (some r.datatype) []] else []) ++
     (if r.unit ≠ "" then [XElem.mk "unit" [] (some r.unit) []] else []) ++
     (if r.ucd ≠ "" then [XElem.mk "ucd" [] (some r.ucd) []] else []) ++
     (if r.description ≠ "" then [XElem.mk "description" [] (some r.description) []] else []))

/-- The `table` element of `generate_tables_xml`: name, optional
description, then the columns keyed by the qualified `schema.table`
name. -/
def tableElem (store : TapSchemaStore) (schema_name : String) (t : TableRecord) : XElem :=
  .mk "table" [] none
    ([XElem.mk "name" [] (some t.table_name) []] ++
     (if t.description ≠ "" then [XElem.mk "description" [] (some t.description) []] else []) ++
     (queryColumnsOrdered store (schema_name ++ "." ++ t.table_name)).map columnElem)

/-- The `schema` element of `generate_tables_xml`. -/
def schemaElem (store : TapSchemaStore) (s : SchemaRecord) : XElem :=
  .mk "schema" [] none
    ([XElem.mk "name" [] (some s.schema_name) []] ++
     (if s.description ≠ "" then [XElem.mk "description" [] (some s.description) []] else []) ++
     (queryTablesOf store s.schema_name).map (tableElem store s.schema_name))

/-- Function `generate_tables_xml` from tap_server.py (lines 531-614): walks the
schemas, each schema's tables and each table's columns; the `keys` and
`key_columns` relations are never queried. -/
def generate_tables_xml (store : TapSchemaStore) : XElem :=
  .mk "tableset" [("xmlns", "http://www.ivoa.net/xml/VODataService/v1.1")] none
    ((querySchemas store).map (schemaElem store))

/-- The `/tables` route (lines 617-621): returns the generated document;
the route accepts no table-identity argument. -/
def tablesEndpoint (store : TapSchemaStore) : SyncResponse :=
  ⟨generate_tables_xml store, 200⟩

mutual

/-- All element tags occurring in a document. -/
def XElem.allTags : XElem → List String
  | .mk t _ _ cs => t :: allTagsList cs

/-- All element tags occurring in a forest of documents. -/
def allTagsList : List XElem → List String
  | [] => []
  | c :: cs => c.allTags ++ allTagsList cs

end

/-! ### Helper lemmas about the produced documents -/

theorem getInfo_error_status (m q : String) :
    getInfo (create_error_votable m q) "QUERY_STATUS" = some "ERROR" := by
  simp [create_error_votable, getInfo, findInfo, XElem.childrenOf, XElem.tagOf,
    XElem.attrsOf, List.lookup]

theorem getInfo_error_message (m q : String) :
    getInfo (create_error_votable m q) "ERROR" = some m := by
  simp [create_error_votable, getInfo, findInfo, XElem.childrenOf, XElem.tagOf,
    XElem.attrsOf, List.lookup]

theorem getInfo_ok_status (data cols qi cm now) :
    getInfo (create_votable_response data cols qi cm now) "QUERY_STATUS" = some "OK" := by
  simp [create_votable_response, getInfo, findInfo, XElem.childrenOf, XElem.tagOf,
    XElem.attrsOf, List.lookup]

theorem getInfo_ok_query (data cols qi cm now) :
    getInfo (create_votable_response data cols qi cm now) "QUERY" = some qi.query := by
  simp [create_votable_response, getInfo, findInfo, XElem.childrenOf, XElem.tagOf,
    XElem.attrsOf, List.lookup]

theorem getInfo_ok_timestamp (data cols qi cm now) :
    getInfo (create_votable_response data cols qi cm now) "TIMESTAMP" = some now := by
  simp [create_votable_response, getInfo, findInfo, XElem.childrenOf, XElem.tagOf,
    XElem.attrsOf, List.lookup]

theorem tableOf_votable (data cols qi cm now) :
    tableOf (create_votable_response data cols qi cm now) =
      some (.mk "TABLE" [("name", qi.table)] none
        (cols.map (fun col => XElem.mk "FIELD" (fieldAttrsFor col cm) none []) ++
         [.mk "DATA" [] none [.mk "TABLEDATA" [] none (data.map (trElem cols))]])) := by
  simp [create_votable_response, tableOf, XElem.childrenOf, XElem.tagOf, List.find?]

theorem tableNameOf_votable (data cols qi cm now) :
    tableNameOf (create_votable_response data cols qi cm now) = some qi.table := by
  simp [tableNameOf, tableOf_votable, XElem.attrsOf, List.lookup]

theorem filter_fields (cols : List String) (cm : List (String × ColMeta))
    (rest : List XElem) (h : rest.filter (fun e => e.tagOf == "FIELD") = []) :
    ((cols.map (fun col => XElem.mk "FIELD" (fieldAttrsFor col cm) none [])) ++
      rest).filter (fun e => e.tagOf == "FIELD") =
      cols.map (fun col => XElem.mk "FIELD" (fieldAttrsFor col cm) none []) := by
  induction cols with
  | nil => simpa using h
  | cons c cs ih => simpa [XElem.tagOf] using ih

theorem find?_data_skip_fields (cols : List String) (cm : List (String × ColMeta))
    (rest : List XElem) :
    ((cols.map (fun col => XElem.mk "FIELD" (fieldAttrsFor col cm) none [])) ++
      rest).find? (fun e => e.tagOf == "DATA") =
      rest.find? (fun e => e.tagOf == "DATA") := by
  induction cols with
  | nil => simp
  | cons c cs ih => simpa [List.find?, XElem.tagOf] using ih

theorem fieldsOf_votable (data cols qi cm now) :
    fieldsOf (create_votable_response data cols qi cm now) =
      cols.map (fun col => XElem.mk "FIELD" (fieldAttrsFor col cm) none []) := by
  rw [fieldsOf, tableOf_votable]
  exact filter_fields cols cm _ (by simp [XElem.tagOf])

theorem rowsOf_votable (data cols qi cm now) :
    rowsOf (create_votable_response data cols qi cm now) = data.map (trElem cols) := by
  rw [rowsOf, tableOf_votable]
  simp only [XElem.childrenOf, find?_data_skip_fields]
  simp [List.find?, XElem.tagOf, XElem.childrenOf]

/-- Case analysis of the shared response tail: either the format is a
VOTable one and a success document is produced, or a 400 error document
naming the unsupported format. -/
theorem finishSync_cases (inp : SyncInputs) (q fmt : String) (data : List Row)
    (cols : List String) (tn : String) :
    finishSync inp q fmt data cols tn =
        ⟨create_votable_response data cols ⟨q, tn⟩
          (get_column_metadata inp.colStore inp.colStoreFails tn) inp.now, 200⟩ ∨
    finishSync inp q fmt data cols tn =
        ⟨create_error_votable ("Unsupported format: " ++ fmt) q, 400⟩ := by
  unfold finishSync
  split
  · exact Or.inl rfl
  · exact Or.inr rfl

/-! ### Claim theorems -/

/-- C6: in the mapping from the descriptor's `spatial_search` variant to
the catalog collaborator's predicate, only the ConeSearch variant is
translated; a PolygonSearch variant or an absent predicate yields no
spatial filter (and no error: the mapping is a total function). -/
theorem c6_only_cone_search_translated :
    (∀ (e : QueryDescriptor) (coords : List (Rat × Rat)),
        e.spatial_search = some (SpatialSearch.polygonSearch coords) →
        (buildCatalogRequest e).search_filter = none) ∧
    (∀ e : QueryDescriptor, e.spatial_search = none →
        (buildCatalogRequest e).search_filter = none) ∧
    (∀ (e : QueryDescriptor) (ra dec radius : Rat),
        e.spatial_search = some (SpatialSearch.coneSearch ra dec radius) →
        (buildCatalogRequest e).search_filter =
          some ⟨ra, dec, radius * 3600⟩) := by
  refine ⟨?_, ?_, ?_⟩
  · intro e coords h
    simp [buildCatalogRequest, searchFilterOf, h]
  · intro e h
    simp [buildCatalogRequest, searchFilterOf, h]
  · intro e ra dec radius h
    simp [buildCatalogRequest, searchFilterOf, h]

theorem c6_witness :
    (buildCatalogRequest
        ⟨["ztf_dr14"], ["ra"], [], some (SpatialSearch.polygonSearch [(1, 2)]), 10, []⟩).search_filter
      = none :=
  c6_only_cone_search_translated.1 _ [(1, 2)] rfl

/-- C10: a ConeSearch descriptor is handed to the catalog collaborator
with `ra` and `dec` unchanged and the radius converted from degrees to
arcseconds by multiplying with 3600. -/
theorem c10_cone_radius_to_arcsec :
    ∀ (e : QueryDescriptor) (ra dec radius : Rat),
      e.spatial_search = some (SpatialSearch.coneSearch ra dec radius) →
      (buildCatalogRequest e).search_filter =
        some { ra := ra, dec := dec, radius_arcsec := radius * 3600 } := by
  intro e ra dec radius h
  simp [buildCatalogRequest, searchFilterOf, h]

theorem c10_witness :
    (buildCatalogRequest
        ⟨["gaia_dr3.gaia"], ["ra", "dec"], [], some (SpatialSearch.coneSearch 280 (-60) 2), 100, []⟩).search_filter
      = some { ra := 280, dec := -60, radius_arcsec := 7200 } := by
  rw [c10_cone_radius_to_arcsec _ 280 (-60) 2 rfl]
  norm_num

/-- C7: a column-metadata lookup for a non-empty table name without a
schema separator whose first store query returns no rows is retried once
with the `public.` prefix, and the metadata found under the prefixed name
is returned. -/
theorem c7_public_fallback_retry :
    ∀ (store : List ColRecord) (t : String),
      t ≠ "" → containsChar t '.' = false →
      queryColumnsByTable store t = [] →
      get_column_metadata store false t =
        buildMetadata (queryColumnsByTable store ("public." ++ t)) := by
  intro store t h1 h2 h3
  simp [get_column_metadata, h1, h2, h3]

theorem c7_witness :
    get_column_metadata [⟨"public.t", "c", "double", "deg", "pos.eq.ra", "d"⟩] false "t" =
      buildMetadata
        (queryColumnsByTable [⟨"public.t", "c", "double", "deg", "pos.eq.ra", "d"⟩] "public.t") :=
  c7_public_fallback_retry _ _ (by decide) (by decide) (by decide)

/-- C9: row serialization emits one `TR` per result row with one text
`TD` per output column, rendering each value by string conversion; a
value absent from the row mapping or equal to `None` renders as the empty
string, never as a null-marker token. -/
theorem c9_row_serialization :
    (∀ (data : List Row) (cols : List String) (qi : QueryInfo)
        (cm : List (String × ColMeta)) (now : String),
        rowsOf (create_votable_response data cols qi cm now) = data.map (trElem cols)) ∧
    (∀ (cols : List String) (row : Row),
        (trElem cols row).childrenOf = cols.map (tdElem row)) ∧
    (∀ (row : Row) (col : String),
        (tdElem row col).textOf = some (renderCell row col)) ∧
    (∀ (row : Row) (col : String), List.lookup col row = none →
        renderCell row col = "") ∧
    (∀ (row : Row) (col : String), List.lookup col row = some CellValue.vNone →
        renderCell row col = "") := by
  refine ⟨fun data cols qi cm now => rowsOf_votable data cols qi cm now,
    fun cols row => rfl, fun row col => rfl, ?_, ?_⟩
  · intro row col h
    simp [renderCell, h]
  · intro row col h
    simp [renderCell, h]

theorem c9_witness :
    renderCell [("a", CellValue.vInt 1)] "b" = "" ∧
    renderCell [("a", CellValue.vNone)] "a" = "" :=
  ⟨c9_row_serialization.2.2.2.1 _ _ (by decide),
   c9_row_serialization.2.2.2.2 _ _ (by decide)⟩

/-- C1 (counterexample): a data query whose descriptor unambiguously
names the schema-qualified table `gaia_dr3.gaia` (with metadata stored
under that name), but whose raw text scans to `star_cat`, performs the
column-metadata lookup with `star_cat`: the response's table name is the
scanned name and the stored `parallax` metadata is not applied — the
descriptor's first table name is never consulted, contradicting priority
order (a) before (b). -/
theorem c1_cex :
    (let inp : SyncInputs :=
      { params := [("REQUEST", "doQuery"), ("QUERY", "SELECT parallax FROM star_cat")],
        parse := fun _ => .ok ⟨["gaia_dr3.gaia"], ["parallax"], [], none, 10, []⟩,
        tapStore := fun _ => .ok ([], []),
        catalog := fun _ => .ok ([[("parallax", CellValue.vInt 7)]], ["parallax"]),
        colStore := [⟨"gaia_dr3.gaia", "parallax", "double", "mas", "pos.parallax", "d"⟩],
        colStoreFails := false, now := "T0" }
     tableNameOf (sync_query inp).body = some "star_cat" ∧
     (fieldsOf (sync_query inp).body).map XElem.attrsOf =
       [[("name", "parallax"), ("datatype", "double"), ("unit", "")]] ∧
     (sync_query inp).status = 200) :=
  ⟨rfl, rfl, rfl⟩

/-- C1 (amended): for a data query the metadata-lookup table name is
resolved from the raw query text alone — the regex scan for an identifier
after a FROM marker whose table part is not an SQL keyword, else the
sentinel `"results"`; the descriptor's first table name is not consulted. -/
theorem c1_table_name_from_query_text :
    (∀ query : String, scanFrom none query.data = none →
        extractTableName query = "results") ∧
    (∀ (query : String) (cand : List Char), scanFrom none query.data = some cand →
        extractTableName query =
          (if sqlKeywords.contains (strUpper (String.mk (lastDotSegment cand)))
           then "results" else String.mk cand)) ∧
    (∀ (inp : SyncInputs) (e : QueryDescriptor) (rows : List Row) (cols : List String),
        pget inp.params "REQUEST" "" = "doQuery" →
        langOk (pget inp.params "LANG" "ADQL") = true →
        pget inp.params "QUERY" "" ≠ "" →
        is_tap_schema_query (pget inp.params "QUERY" "") = false →
        strLower (pget inp.params "FORMAT" "votable") = "votable" →
        inp.parse (pget inp.params "QUERY" "") = .ok e →
        e.tables ≠ [] →
        inp.catalog (buildCatalogRequest e) = .ok (rows, cols) →
        tableNameOf (sync_query inp).body =
          some (extractTableName (pget inp.params "QUERY" ""))) := by
  refine ⟨?_, ?_, ?_⟩
  · intro query h
    simp [extractTableName, h]
  · intro query cand h
    simp [extractTableName, h]
  · intro inp e rows cols hreq hlang hq htap hfmt hparse htab hcat
    simp only [sync_query, hreq, hlang, hq, htap, hparse, hcat, hfmt, finishSync,
      List.isEmpty_iff, htab, ne_eq, not_true_eq_false, not_false_eq_true,
      if_true, if_false, ite_false, ite_true, Bool.not_false, Bool.false_eq_true]
    simp [tableNameOf_votable]

theorem c1_witness :
    tableNameOf (sync_query
      { params := [("REQUEST", "doQuery"), ("QUERY", "SELECT ra FROM ztf_dr14")],
        parse := fun _ => .ok ⟨["ztf_dr14"], ["ra"], [], none, 10, []⟩,
        tapStore := fun _ => .ok ([], []),
        catalog := fun _ => .ok ([], ["ra"]),
        colStore := [], colStoreFails := false, now := "T0" }).body =
      some (extractTableName "SELECT ra FROM ztf_dr14") :=
  c1_table_name_from_query_text.2.2 _ ⟨["ztf_dr14"], ["ra"], [], none, 10, []⟩ [] ["ra"]
    rfl (by decide) (by decide) (by decide) rfl rfl (by decide) rfl

/-- C2 (counterexample): a TAP_SCHEMA request whose metadata-store query
raises (malformed text) does not surface as a request failure: the
response is a 200 success document with `QUERY_STATUS=OK` and an empty
table. -/
theorem c2_cex :
    (let inp : SyncInputs :=
      { params := [("REQUEST", "doQuery"),
                   ("QUERY", "SELECT * FROM tap_schema.tables WHERE (")],
        parse := fun _ => .error "unused",
        tapStore := fun _ => .error "malformed metadata-store query",
        catalog := fun _ => .error "unused",
        colStore := [], colStoreFails := false, now := "T0" }
     (sync_query inp).status = 200 ∧
     getInfo (sync_query inp).body "QUERY_STATUS" = some "OK" ∧
     rowsOf (sync_query inp).body = [] ∧
     fieldsOf (sync_query inp).body = []) :=
  ⟨rfl, rfl, rfl, rfl⟩

/-- C2 (amended): a metadata-store error degrades to an empty result on
both paths — `query_tap_schema` maps any store exception to the empty
result set, so a direct introspection request still succeeds (status 200,
`QUERY_STATUS=OK`, no rows), and a failing enrichment lookup yields the
empty metadata dictionary. -/
theorem c2_store_error_degrades_to_empty :
    (∀ e : String, query_tap_schema (.error e) = ([], [])) ∧
    (∀ (store : List ColRecord) (t : String), get_column_metadata store true t = []) ∧
    (∀ (inp : SyncInputs) (msg : String),
        pget inp.params "REQUEST" "" = "doQuery" →
        langOk (pget inp.params "LANG" "ADQL") = true →
        pget inp.params "QUERY" "" ≠ "" →
        is_tap_schema_query (pget inp.params "QUERY" "") = true →
        inp.tapStore (pget inp.params "QUERY" "") = .error msg →
        strLower (pget inp.params "FORMAT" "votable") = "votable" →
        (sync_query inp).status = 200 ∧
        getInfo (sync_query inp).body "QUERY_STATUS" = some "OK" ∧
        rowsOf (sync_query inp).body = [] ∧
        fieldsOf (sync_query inp).body = []) := by
  refine ⟨fun e => rfl, ?_, ?_⟩
  · intro store t
    unfold get_column_metadata
    split
    · rfl
    · rfl
  · intro inp msg hreq hlang hq htap hstore hfmt
    simp only [sync_query, hreq, hlang, hq, htap, hstore, hfmt, finishSync,
      query_tap_schema, ne_eq, not_true_eq_false, not_false_eq_true,
      if_true, if_false, ite_false, ite_true, Bool.not_false]
    simp [getInfo_ok_status, rowsOf_votable, fieldsOf_votable]

theorem c2_witness :
    (let inp : SyncInputs :=
      { params := [("REQUEST", "doQuery"), ("QUERY", "select * from tap_schema.columns (")],
        parse := fun _ => .error "unused",
        tapStore := fun _ => .error "no such column",
        catalog := fun _ => .error "unused",
        colStore := [], colStoreFails := false, now := "T1" }
     (sync_query inp).status = 200 ∧
     getInfo (sync_query inp).body "QUERY_STATUS" = some "OK" ∧
     rowsOf (sync_query inp).body = [] ∧
     fieldsOf (sync_query inp).body = []) :=
  c2_store_error_degrades_to_empty.2.2 _ "no such column"
    rfl (by decide) (by decide) (by decide) rfl rfl

/-- Every `finishSync` response is either a success document (OK status,
query text, timestamp, HTTP 200) or an error document (ERROR status, an
ERROR message, non-200). -/
theorem finishSync_shape (inp : SyncInputs) (q fmt : String) (data : List Row)
    (cols : List String) (tn : String) :
    (getInfo (finishSync inp q fmt data cols tn).body "QUERY_STATUS" = some "OK" ∧
     getInfo (finishSync inp q fmt data cols tn).body "QUERY" = some q ∧
     getInfo (finishSync inp q fmt data cols tn).body "TIMESTAMP" = some inp.now ∧
     (finishSync inp q fmt data cols tn).status = 200) ∨
    (getInfo (finishSync inp q fmt data cols tn).body "QUERY_STATUS" = some "ERROR" ∧
     (∃ m, getInfo (finishSync inp q fmt data cols tn).body "ERROR" = some m) ∧
     (finishSync inp q fmt data cols tn).status ≠ 200) := by
  rcases finishSync_cases inp q fmt data cols tn with h | h <;> rw [h]
  · exact Or.inl ⟨getInfo_ok_status _ _ _ _ _, getInfo_ok_query _ _ _ _ _,
      getInfo_ok_timestamp _ _ _ _ _, rfl⟩
  · exact Or.inr ⟨getInfo_error_status _ _, ⟨_, getInfo_error_message _ _⟩, by simp⟩

/-- C3 (counterexample): the error document produced for a request that
lacks the QUERY parameter carries neither a `TIMESTAMP` entry nor a
`QUERY` entry, contradicting the claim that every document of the sync
endpoint carries the original query text and a timestamp. -/
theorem c3_cex :
    (let inp : SyncInputs :=
      { params := [("REQUEST", "doQuery")],
        parse := fun _ => .error "unused",
        tapStore := fun _ => .ok ([], []),
        catalog := fun _ => .ok ([], []),
        colStore := [], colStoreFails := false, now := "T0" }
     getInfo (sync_query inp).body "QUERY_STATUS" = some "ERROR" ∧
     getInfo (sync_query inp).body "TIMESTAMP" = none ∧
     getInfo (sync_query inp).body "QUERY" = none ∧
     (sync_query inp).status = 400) :=
  ⟨rfl, rfl, rfl, rfl⟩

/-- C3 (amended): every response of the sync endpoint is a well-formed
document with a status entry: on success it carries `QUERY_STATUS=OK`,
the original query text and the timestamp with HTTP 200; on failure it
carries `QUERY_STATUS=ERROR` and an error message with a non-200 status
(the query text only when available, and no timestamp). -/
theorem c3_document_always_carries_status :
    ∀ inp : SyncInputs,
      (getInfo (sync_query inp).body "QUERY_STATUS" = some "OK" ∧
       getInfo (sync_query inp).body "QUERY" = some (pget inp.params "QUERY" "") ∧
       getInfo (sync_query inp).body "TIMESTAMP" = some inp.now ∧
       (sync_query inp).status = 200) ∨
      (getInfo (sync_query inp).body "QUERY_STATUS" = some "ERROR" ∧
       (∃ m, getInfo (sync_query inp).body "ERROR" = some m) ∧
       (sync_query inp).status ≠ 200) := by
  intro inp
  simp only [sync_query]
  split
  · exact Or.inr ⟨getInfo_error_status _ _, ⟨_, getInfo_error_message _ _⟩, by simp⟩
  · split
    · exact Or.inr ⟨getInfo_error_status _ _, ⟨_, getInfo_error_message _ _⟩, by simp⟩
    · split
      · exact Or.inr ⟨getInfo_error_status _ _, ⟨_, getInfo_error_message _ _⟩, by simp⟩
      · split
        · exact finishSync_shape _ _ _ _ _ _
        · split
          · exact Or.inr ⟨getInfo_error_status _ _, ⟨_, getInfo_error_message _ _⟩, by simp⟩
          · split
            · exact Or.inr ⟨getInfo_error_status _ _, ⟨_, getInfo_error_message _ _⟩, by simp⟩
            · split
              · exact Or.inr ⟨getInfo_error_status _ _, ⟨_, getInfo_error_message _ _⟩, by simp⟩
              · exact finishSync_shape _ _ _ _ _ _

/-- C4 (counterexample): for a column with no stored metadata and no
astronomical-role fallback, the emitted field descriptor still carries a
`unit` attribute, with the empty string as its value — contradicting the
claim that the unit attribute is emitted only when its value is
non-empty. -/
theorem c4_cex :
    List.lookup "unit" (fieldAttrsFor "parallax" []) = some "" ∧
    (fieldsOf (create_votable_response [] ["parallax"] ⟨"q", "results"⟩ [] "T0")).map
        XElem.attrsOf =
      [[("name", "parallax"), ("datatype", "double"), ("unit", "")]] :=
  ⟨rfl, rfl⟩

/-- C4 (amended): exactly one field descriptor is emitted per output
column; the datatype attribute defaults to the generic `"double"` when
metadata is absent or blank; the UCD attribute is emitted only when known
(non-empty); the unit attribute however is always present, empty when
unknown and not covered by an astronomical-role fallback. -/
theorem c4_field_descriptor_attrs :
    (∀ (data : List Row) (cols : List String) (qi : QueryInfo)
        (cm : List (String × ColMeta)) (now : String),
        fieldsOf (create_votable_response data cols qi cm now) =
          cols.map (fun col => XElem.mk "FIELD" (fieldAttrsFor col cm) none [])) ∧
    (∀ (col : String) (cm : List (String × ColMeta)),
        List.lookup "name" (fieldAttrsFor col cm) = some col) ∧
    (∀ (col : String) (cm : List (String × ColMeta)),
        (List.lookup "unit" (fieldAttrsFor col cm)).isSome = true) ∧
    (∀ (col : String) (cm : List (String × ColMeta)),
        List.lookup col cm = none →
        List.lookup "datatype" (fieldAttrsFor col cm) = some "double") ∧
    (∀ (col : String) (cm : List (String × ColMeta)) (m : ColMeta),
        List.lookup col cm = some m → m.datatype = "" →
        List.lookup "datatype" (fieldAttrsFor col cm) = some "double") ∧
    (∀ (col : String) (cm : List (String × ColMeta)) (m : ColMeta),
        List.lookup col cm = some m → m.ucd = "" →
        List.lookup "ucd" (fieldAttrsFor col cm) = none) ∧
    (∀ (col : String) (cm : List (String × ColMeta)) (m : ColMeta),
        List.lookup col cm = some m → m.ucd ≠ "" →
        List.lookup "ucd" (fieldAttrsFor col cm) = some m.ucd) ∧
    (∀ (col : String) (cm : List (String × ColMeta)),
        List.lookup col cm = none →
        ¬(strLower col = "ra" ∨ strLower col = "ra_deg") →
        ¬(strLower col = "dec" ∨ strLower col = "dec_deg") →
        ¬(strLower col = "mag" ∨ strLower col = "magnitude") →
        fieldAttrsFor col cm = [("name", col), ("datatype", "double"), ("unit", "")]) := by
  refine ⟨fun data cols qi cm now => fieldsOf_votable data cols qi cm now, ?_, ?_, ?_, ?_, ?_, ?_, ?_⟩
  · intro col cm
    unfold fieldAttrsFor
    cases List.lookup col cm
    · dsimp only
      split_ifs <;> simp [List.lookup]
    · simp [List.lookup]
  · intro col cm
    unfold fieldAttrsFor
    cases List.lookup col cm
    · dsimp only
      split_ifs <;> simp [List.lookup]
    · simp [List.lookup]
  · intro col cm h
    simp [fieldAttrsFor, h, List.lookup]
    split_ifs <;> simp [List.lookup]
  · intro col cm m h hd
    simp [fieldAttrsFor, h, hd, List.lookup]
  · intro col cm m h hu
    simp [fieldAttrsFor, h, hu, List.lookup]
  · intro col cm m h hu
    simp [fieldAttrsFor, h, hu, List.lookup]
  · intro col cm h h1 h2 h3
    simp [fieldAttrsFor, h, h1, h2, h3]

theorem c4_witness :
    fieldAttrsFor "parallax" [] = [("name", "parallax"), ("datatype", "double"), ("unit", "")] :=
  c4_field_descriptor_attrs.2.2.2.2.2.2.2 "parallax" [] (by decide) (by decide) (by decide)
    (by decide)

/-- C5: the live tables document walks Schema→Table→Column records only:
the `keys`/`key_columns` relations never influence the output (changing
them leaves the document unchanged), the document for the test fixture's
store (which holds the foreign key `fk_parent`) contains no
`foreignKey`/`fkColumn` element, and the endpoint takes no table-identity
scope.  The repository's own tests
(`test_tables_endpoint_includes_columns_and_keys`,
`test_specific_table_endpoint_returns_metadata`) require foreign-key
elements and a table-scoped variant, so the code contradicts its tests
here. -/
theorem c5_keys_not_walked :
    (∀ (store : TapSchemaStore) (ks : List KeyRecord) (kcs : List KeyColumnRecord),
        generate_tables_xml { store with keys := ks, key_columns := kcs } =
          generate_tables_xml store) ∧
    (let storeK : TapSchemaStore :=
      { schemas := [⟨"gaia_dr3", "Gaia DR3 schema"⟩],
        tables := [⟨"gaia_dr3", "gaia", "table", "Gaia sources"⟩],
        columns := [⟨"gaia_dr3.gaia", "parent_id", "long", "", "", ""⟩],
        keys := [⟨"fk_parent", "gaia_dr3.gaia", "gaia_dr3.parents", "Parent relation"⟩],
        key_columns := [⟨"fk_parent", "parent_id", "id"⟩] }
     (generate_tables_xml storeK).allTags.contains "foreignKey" = false ∧
     (generate_tables_xml storeK).allTags.contains "fkColumn" = false ∧
     (generate_tables_xml storeK).allTags =
       ["tableset", "schema", "name", "description", "table", "name",
        "description", "column", "name", "dataType"] ∧
     tablesEndpoint storeK =
       ⟨generate_tables_xml { storeK with keys := [], key_columns := [] }, 200⟩) :=
  ⟨fun _ _ _ => rfl, by decide, by decide, by decide, rfl⟩

/-- C8 (counterexample): a request with empty query text is not treated
as a data query: even with a catalog backend ready to return rows, the
endpoint rejects it up front as a missing-parameter validation error
(HTTP 400 error document), before any classification. -/
theorem c8_cex :
    (let inp : SyncInputs :=
      { params := [("REQUEST", "doQuery"), ("QUERY", "")],
        parse := fun _ => .ok ⟨["ztf_dr14"], ["ra"], [], none, 10, []⟩,
        tapStore := fun _ => .ok ([], []),
        catalog := fun _ => .ok ([[("ra", CellValue.vInt 1)]], ["ra"]),
        colStore := [], colStoreFails := false, now := "T0" }
     (sync_query inp).status = 400 ∧
     getInfo (sync_query inp).body "QUERY_STATUS" = some "ERROR" ∧
     getInfo (sync_query inp).body "ERROR" = some "Missing required parameter: QUERY") :=
  ⟨rfl, rfl, rfl⟩

/-- C8 (amended): classification is by case-insensitive containment of
the `tap_schema.` marker; the classifier returns false on empty text, but
an empty-query request is rejected as a validation error before
classification rather than treated as a data query.  Routing is
observable through oracle independence: a marker-containing request never
consults the parser or the catalog backend, and every other request never
consults the TAP_SCHEMA store engine. -/
theorem c8_routing :
    is_tap_schema_query "" = false ∧
    (∀ q : String, q ≠ "" →
        is_tap_schema_query q = containsSub (strLower q).data "tap_schema.".data) ∧
    (∀ (inp : SyncInputs) (p' : String → Except String QueryDescriptor)
        (c' : CatalogRequest → Except String (List Row × List String)),
        is_tap_schema_query (pget inp.params "QUERY" "") = true →
        sync_query inp = sync_query { inp with parse := p', catalog := c' }) ∧
    (∀ (inp : SyncInputs) (t' : String → Except String (List Row × List String)),
        is_tap_schema_query (pget inp.params "QUERY" "") = false →
        sync_query inp = sync_query { inp with tapStore := t' }) ∧
    (∀ inp : SyncInputs,
        pget inp.params "REQUEST" "" = "doQuery" →
        langOk (pget inp.params "LANG" "ADQL") = true →
        pget inp.params "QUERY" "" = "" →
        sync_query inp = ⟨create_error_votable "Missing required parameter: QUERY" "", 400⟩) := by
  refine ⟨rfl, ?_, ?_, ?_, ?_⟩
  · intro q h
    simp [is_tap_schema_query, h]
  · intro inp p' c' h
    simp only [sync_query, finishSync, h]
    split
    · rfl
    · split
      · rfl
      · split
        · rfl
        · simp
  · intro inp t' h
    simp only [sync_query, finishSync, h]
    split
    · rfl
    · split
      · rfl
      · split
        · rfl
        · simp
  · intro inp hreq hlang hq
    simp [sync_query, hreq, hlang, hq]

theorem c8_witness :
    sync_query
      { params := [("REQUEST", "doQuery")],
        parse := fun _ => .ok ⟨["ztf_dr14"], ["ra"], [], none, 10, []⟩,
        tapStore := fun _ => .ok ([], []),
        catalog := fun _ => .ok ([], ["ra"]),
        colStore := [], colStoreFails := false, now := "T0" } =
      ⟨create_error_votable "Missing required parameter: QUERY" "", 400⟩ :=
  c8_routing.2.2.2.2 _ rfl (by decide) rfl

end TapServer
